import Mathlib

/-!
Shallow embedding of `src/clarity_vm/database/mod.rs` from the
stacks-blockchain state-access adapter layer, together with theorems
settling the specification claims about it.

The embedding models:
- the `HeadersDB` implementation for `DBConn` (header and miner-payment
  lookups over a SQL connection, via `rusqlite`'s `query_row`);
- the two `BurnStateDB` implementations (`SortitionHandleTx`,
  `SortitionDBConn`) over the sortition ledger;
- the in-memory `ClarityBackingStore` implementation
  (`MemoryBackingStore`).

Process panics (`expect`, i.e. aborts) are modelled by the `Outcome`
type; fallible external calls return `Except`; mutation is modelled by
explicit state passing (a method on `&mut self` returns the new state).
Collaborator code that lives outside this repository slice is modelled
from the specification and marked `Modelled from the spec:` in its doc
comment.
-/

set_option autoImplicit false

/-- Opaque fixed-size identifier of an indexed Stacks block
(`StacksBlockId`); its single field models the byte content `.0`. -/
structure StacksBlockId where
  o : Nat
deriving DecidableEq, Repr

/-- Opaque Stacks block header hash (`BlockHeaderHash`); the field models
the byte content `.0`. -/
structure BlockHeaderHash where
  o : Nat
deriving DecidableEq, Repr

/-- Opaque burnchain header hash (`BurnchainHeaderHash`). -/
structure BurnchainHeaderHash where
  o : Nat
deriving DecidableEq, Repr

/-- Opaque fork-qualified sortition identifier (`SortitionId`). -/
structure SortitionId where
  o : Nat
deriving DecidableEq, Repr

/-- Opaque Stacks address (`StacksAddress`). -/
structure StacksAddress where
  o : Nat
deriving DecidableEq, Repr

/-- Opaque VRF seed (`VRFSeed`). -/
structure VRFSeed where
  o : Nat
deriving DecidableEq, Repr

/-- Merkle proof over a trie keyed by block identifiers
(`TrieMerkleProof<StacksBlockId>`); the code only ever builds the empty
proof `TrieMerkleProof(vec![])`, modelled as the empty list. -/
structure TrieMerkleProof where
  entries : List Nat
deriving DecidableEq, Repr

/-- Outcome of an operation that can terminate the process: `ok` is a
normal return, `abort` models a Rust panic (`expect` on a failure). -/
inductive Outcome (α : Type) where
  | ok (a : α) : Outcome α
  | abort : Outcome α
deriving DecidableEq, Repr

/-- Runtime error type surfaced to the Clarity interpreter
(`RuntimeErrorType`); only the variant used by this file is modelled in
full, a second variant keeps the type non-degenerate. -/
inductive RuntimeErrorType where
  | unknownBlockHeaderHash (h : BlockHeaderHash) : RuntimeErrorType
  | arithmeticOverflow : RuntimeErrorType
deriving DecidableEq, Repr

/-- Result type of fallible interpreter-facing operations
(`InterpreterResult<T>`). -/
abbrev InterpreterResult (α : Type) := Except RuntimeErrorType α

/-- Modelled from the spec: `StacksBlockId::sentinel()`, the special
sentinel identifier denoting the genesis/empty state, the only
identifier valid at height 0. -/
def StacksBlockId.sentinel : StacksBlockId := ⟨0⟩

/-! ## The in-memory Backing Store (`MemoryBackingStore`)

The Rust store owns a SQLite side store reached through
`SqliteConnection::get/put`.  That collaborator lives outside this
repository slice, so its point get/put contract is modelled from the
spec as an association list keyed by opaque strings. -/

/-- Side key-value store state of a `MemoryBackingStore` (the contents
reachable through its `rusqlite::Connection`). -/
abbrev SideStore := List (String × String)

/-- Modelled from the spec: `SqliteConnection::get(conn, key)` — point
lookup in the key-value storage engine; returns the stored value for
`key` if present, else absent. -/
def SqliteConnection.get (store : SideStore) (key : String) : Option String :=
  (store.find? (fun p => p.1 = key)).map (fun p => p.2)

/-- Modelled from the spec: `SqliteConnection::put(conn, key, value)` —
point write in the key-value storage engine; inserts or overwrites the
pair for `key`. -/
def SqliteConnection.put (store : SideStore) (key value : String) : SideStore :=
  (key, value) :: store.filter (fun p => p.1 ≠ key)

/-- In-memory implementation of the Clarity backing store
(`MemoryBackingStore`); it owns its side store exclusively. -/
structure MemoryBackingStore where
  side_store : SideStore

namespace MemoryBackingStore

/-- Embeds `MemoryBackingStore::set_block_hash`: unconditionally returns
the typed `UnknownBlockHeaderHash` error built from the argument's
bytes; the Rust body has no mutation and no panic path, so the state is
returned unchanged and the result type has no abort. -/
def set_block_hash (s : MemoryBackingStore) (bhh : StacksBlockId) :
    InterpreterResult StacksBlockId × MemoryBackingStore :=
  (Except.error (RuntimeErrorType.unknownBlockHeaderHash ⟨bhh.o⟩), s)

/-- Embeds `MemoryBackingStore::get`: delegates to the side store. -/
def get (s : MemoryBackingStore) (key : String) : Option String :=
  SqliteConnection.get s.side_store key

/-- Embeds `MemoryBackingStore::get_with_proof`: the side-store value
paired with the empty proof. -/
def get_with_proof (s : MemoryBackingStore) (key : String) :
    Option (String × TrieMerkleProof) :=
  (SqliteConnection.get s.side_store key).map (fun x => (x, ⟨[]⟩))

/-- Embeds `MemoryBackingStore::get_block_at_height`: the sentinel
identifier at height 0, absent otherwise. -/
def get_block_at_height (_s : MemoryBackingStore) (height : Nat) :
    Option StacksBlockId :=
  if height = 0 then some StacksBlockId.sentinel else none

/-- Embeds `MemoryBackingStore::get_open_chain_tip`. -/
def get_open_chain_tip (_s : MemoryBackingStore) : StacksBlockId :=
  StacksBlockId.sentinel

/-- Embeds `MemoryBackingStore::get_open_chain_tip_height`. -/
def get_open_chain_tip_height (_s : MemoryBackingStore) : Nat := 0

/-- Embeds `MemoryBackingStore::get_current_block_height`. -/
def get_current_block_height (_s : MemoryBackingStore) : Nat := 0

/-- Embeds `MemoryBackingStore::put_all`: writes each pair in order
through `SqliteConnection::put`. -/
def put_all (s : MemoryBackingStore) (items : List (String × String)) :
    MemoryBackingStore :=
  ⟨items.foldl (fun st kv => SqliteConnection.put st kv.1 kv.2) s.side_store⟩

end MemoryBackingStore

/-! ## Claims C4, C8, C9, C10 — the in-memory Backing Store -/

/-- C4: every call to `MemoryBackingStore::set_block_hash`, with any
block-identifier argument, returns the typed "unknown header hash"
error (built from the argument's bytes); it never succeeds, and its
result type has no abort outcome. -/
theorem c4_set_block_hash_always_unknown_header_hash
    (s : MemoryBackingStore) (bhh : StacksBlockId) :
    (s.set_block_hash bhh).1 =
      Except.error (RuntimeErrorType.unknownBlockHeaderHash ⟨bhh.o⟩) ∧
    ∀ tip : StacksBlockId, (s.set_block_hash bhh).1 ≠ Except.ok tip := by
  constructor
  · rfl
  · intro tip h
    simp [MemoryBackingStore.set_block_hash] at h

/-- C8: `get_block_at_height 0` always returns the sentinel identifier
and `get_block_at_height h` for `h > 0` always returns absence,
whatever the store's key-value contents. -/
theorem c8_get_block_at_height_genesis_only
    (s : MemoryBackingStore) (h : Nat) (hpos : 0 < h) :
    s.get_block_at_height 0 = some StacksBlockId.sentinel ∧
    s.get_block_at_height h = none := by
  refine ⟨rfl, ?_⟩
  simp [MemoryBackingStore.get_block_at_height, Nat.pos_iff_ne_zero.mp hpos]

/-- Witness for C8 at a concrete store and height. -/
theorem c8_get_block_at_height_genesis_only_witness :
    (MemoryBackingStore.mk [("a", "b")]).get_block_at_height 0 =
      some StacksBlockId.sentinel ∧
    (MemoryBackingStore.mk [("a", "b")]).get_block_at_height 7 = none :=
  c8_get_block_at_height_genesis_only ⟨[("a", "b")]⟩ 7 (by decide)

/-- Helper: a `put` followed by a `get` of the same key yields the
written value. -/
theorem SqliteConnection.get_put_same (store : SideStore) (k v : String) :
    SqliteConnection.get (SqliteConnection.put store k v) k = some v := by
  simp [SqliteConnection.get, SqliteConnection.put, List.find?]

/-- C9: on the in-memory Backing Store, `put_all [(k, v)]` then `get k`
returns `v` and `get_with_proof k` returns `(v, empty proof)`; and
`put_all [(k, v1), (k, v2)]` then `get k` returns `v2` (last write for a
duplicate key within one batch wins). -/
theorem c9_put_all_get_round_trip
    (s : MemoryBackingStore) (k v v1 v2 : String) :
    (s.put_all [(k, v)]).get k = some v ∧
    (s.put_all [(k, v)]).get_with_proof k = some (v, ⟨[]⟩) ∧
    (s.put_all [(k, v1), (k, v2)]).get k = some v2 := by
  refine ⟨?_, ?_, ?_⟩
  · simpa [MemoryBackingStore.put_all, MemoryBackingStore.get] using
      SqliteConnection.get_put_same s.side_store k v
  · simp only [MemoryBackingStore.put_all, MemoryBackingStore.get_with_proof,
      List.foldl]
    rw [SqliteConnection.get_put_same]
    rfl
  · simpa [MemoryBackingStore.put_all, MemoryBackingStore.get] using
      SqliteConnection.get_put_same
        (SqliteConnection.put s.side_store k v1) k v2

/-- C10: a failed `set_block_hash` call leaves the in-memory store
observationally unchanged: every `get` and `get_with_proof` answer is
the same after the failed call as before it, and the chain-tip queries
still return the sentinel identifier, 0 and 0. -/
theorem c10_set_block_hash_failure_preserves_state
    (s : MemoryBackingStore) (bhh : StacksBlockId) :
    (∃ e, (s.set_block_hash bhh).1 = Except.error e) ∧
    (∀ k, ((s.set_block_hash bhh).2).get k = s.get k) ∧
    (∀ k, ((s.set_block_hash bhh).2).get_with_proof k = s.get_with_proof k) ∧
    ((s.set_block_hash bhh).2).get_open_chain_tip = StacksBlockId.sentinel ∧
    ((s.set_block_hash bhh).2).get_open_chain_tip_height = 0 ∧
    ((s.set_block_hash bhh).2).get_current_block_height = 0 :=
  ⟨⟨RuntimeErrorType.unknownBlockHeaderHash ⟨bhh.o⟩, rfl⟩,
   fun _ => rfl, fun _ => rfl, rfl, rfl, rfl⟩

/-! ## The Header Accessor (`impl HeadersDB for DBConn`)

The source queries two SQL tables through `rusqlite`'s
`Connection::query_row`, post-composed with `.optional()` and
`.expect(..)`, and parses rows with `from_row(..).expect(..)`.  Tables
are modelled as row lists; a row that `from_row` cannot parse is
modelled by `parsed = none`; a failure of the query mechanism itself by
a flag on the connection. -/

/-- Anchored Stacks block header carried by a header record; `data`
stands for the remaining opaque header content, `proof` for the stored
VRF proof. -/
structure StacksBlockHeader where
  data : Nat
  proof : Nat
deriving DecidableEq, Repr

/-- Modelled from the spec: `StacksBlockHeader::block_hash()` — the
canonical block hash, a deterministic function of the header. -/
def StacksBlockHeader.block_hash (h : StacksBlockHeader) : BlockHeaderHash :=
  ⟨h.data⟩

/-- Modelled from the spec: `VRFSeed::from_proof` — the VRF seed derived
deterministically from a block's stored proof. -/
def VRFSeed.from_proof (proof : Nat) : VRFSeed := ⟨proof⟩

/-- Header record (`StacksHeaderInfo`) as used by this file: the
anchored header plus the burnchain hash, timestamp and height. -/
structure StacksHeaderInfo where
  anchored_header : StacksBlockHeader
  burn_header_hash : BurnchainHeaderHash
  burn_header_timestamp : Nat
  burn_header_height : Nat
deriving DecidableEq, Repr

/-- Miner payment record (`MinerPaymentSchedule`) as used by this file:
the reward-eligible address. -/
structure MinerPaymentSchedule where
  address : StacksAddress
deriving DecidableEq, Repr

/-- Row of the `block_headers` table: its `index_block_hash` key and the
result of `StacksHeaderInfo::from_row` on it (`none` = malformed). -/
structure HeaderRow where
  index_block_hash : StacksBlockId
  parsed : Option StacksHeaderInfo
deriving DecidableEq, Repr

/-- Row of the `payments` table: its `index_block_hash` key, its `miner`
slot flag, and the result of `MinerPaymentSchedule::from_row` on it
(`none` = malformed). -/
structure PaymentRow where
  index_block_hash : StacksBlockId
  miner : Bool
  parsed : Option MinerPaymentSchedule
deriving DecidableEq, Repr

/-- Header-ledger SQL connection (`DBConn`): the two tables the source
queries, plus one mechanism-failure flag per table modelling a SQL
error raised by the query itself. -/
structure DBConn where
  block_headers : List HeaderRow
  payments : List PaymentRow
  block_headers_query_fails : Bool
  payments_query_fails : Bool
deriving DecidableEq, Repr

/-- Models the source's `conn.query_row(sql, params, row_fn).optional()
.expect(..)` pattern over the rows selected by the SQL `WHERE` clause:
a failure of the query mechanism panics through the outer `expect`
(abort); zero selected rows is turned into the normal absent result by
`.optional()`; otherwise `rusqlite`'s `query_row` maps only the FIRST
selected row (all rows after the first are ignored, per its contract),
and a first row that `from_row` cannot parse panics through the inner
`expect` (abort). -/
def queryRowOptionalExpect {ρ α : Type} (fails : Bool) (rows : List ρ)
    (parse : ρ → Option α) : Outcome (Option α) :=
  if fails then Outcome.abort
  else
    match rows with
    | [] => Outcome.ok none
    | r :: _ =>
      match parse r with
      | some a => Outcome.ok (some a)
      | none => Outcome.abort

/-- Rows selected by `SELECT * FROM block_headers WHERE
index_block_hash = ?`. -/
def headerRowsFor (conn : DBConn) (id_bhh : StacksBlockId) : List HeaderRow :=
  conn.block_headers.filter (fun r => r.index_block_hash == id_bhh)

/-- Rows selected by `SELECT * FROM payments WHERE index_block_hash = ?
AND miner = 1`. -/
def minerRowsFor (conn : DBConn) (id_bhh : StacksBlockId) : List PaymentRow :=
  conn.payments.filter (fun r => r.index_block_hash == id_bhh && r.miner)

/-- Embeds the free function `get_stacks_header_info`. -/
def get_stacks_header_info (conn : DBConn) (id_bhh : StacksBlockId) :
    Outcome (Option StacksHeaderInfo) :=
  queryRowOptionalExpect conn.block_headers_query_fails
    (headerRowsFor conn id_bhh) (fun r => r.parsed)

/-- Embeds the free function `get_miner_info`. -/
def get_miner_info (conn : DBConn) (id_bhh : StacksBlockId) :
    Outcome (Option MinerPaymentSchedule) :=
  queryRowOptionalExpect conn.payments_query_fails
    (minerRowsFor conn id_bhh) (fun r => r.parsed)

/-- Maps a function over the optional value of a normal outcome,
mirroring Rust's `Option::map` applied under the panic behaviour. -/
def Outcome.omap {α β : Type} (f : α → β) :
    Outcome (Option α) → Outcome (Option β)
  | Outcome.ok x => Outcome.ok (x.map f)
  | Outcome.abort => Outcome.abort

namespace DBConn

/-- Embeds `HeadersDB::get_stacks_block_header_hash_for_block` for
`DBConn`. -/
def get_stacks_block_header_hash_for_block (conn : DBConn)
    (id_bhh : StacksBlockId) : Outcome (Option BlockHeaderHash) :=
  (get_stacks_header_info conn id_bhh).omap
    (fun x => x.anchored_header.block_hash)

/-- Embeds `HeadersDB::get_burn_header_hash_for_block` for `DBConn`. -/
def get_burn_header_hash_for_block (conn : DBConn)
    (id_bhh : StacksBlockId) : Outcome (Option BurnchainHeaderHash) :=
  (get_stacks_header_info conn id_bhh).omap (fun x => x.burn_header_hash)

/-- Embeds `HeadersDB::get_burn_block_time_for_block` for `DBConn`. -/
def get_burn_block_time_for_block (conn : DBConn)
    (id_bhh : StacksBlockId) : Outcome (Option Nat) :=
  (get_stacks_header_info conn id_bhh).omap (fun x => x.burn_header_timestamp)

/-- Embeds `HeadersDB::get_burn_block_height_for_block` for `DBConn`. -/
def get_burn_block_height_for_block (conn : DBConn)
    (id_bhh : StacksBlockId) : Outcome (Option Nat) :=
  (get_stacks_header_info conn id_bhh).omap (fun x => x.burn_header_height)

/-- Embeds `HeadersDB::get_vrf_seed_for_block` for `DBConn`. -/
def get_vrf_seed_for_block (conn : DBConn) (id_bhh : StacksBlockId) :
    Outcome (Option VRFSeed) :=
  (get_stacks_header_info conn id_bhh).omap
    (fun x => VRFSeed.from_proof x.anchored_header.proof)

/-- Embeds `HeadersDB::get_miner_address` for `DBConn`. -/
def get_miner_address (conn : DBConn) (id_bhh : StacksBlockId) :
    Outcome (Option StacksAddress) :=
  (get_miner_info conn id_bhh).omap (fun x => x.address)

end DBConn

/-! ## Claims C3, C5, C6 — the Header Accessor -/

/-- Concrete corrupted connection for claim C3: two well-formed
`block_headers` rows and two miner-flagged `payments` rows share one
block identifier. -/
def c3corruptConn : DBConn :=
  ⟨[⟨⟨1⟩, some ⟨⟨10, 11⟩, ⟨12⟩, 13, 14⟩⟩, ⟨⟨1⟩, some ⟨⟨20, 21⟩, ⟨22⟩, 23, 24⟩⟩],
   [⟨⟨1⟩, true, some ⟨⟨77⟩⟩⟩, ⟨⟨1⟩, true, some ⟨⟨88⟩⟩⟩],
   false, false⟩

/-- Counterexample for C3: with more than one matching row, neither
lookup aborts — `rusqlite`'s `query_row` ignores every row after the
first, so each lookup answers from the first row instead. -/
theorem c3_more_than_one_row_no_abort_counterexample :
    (headerRowsFor c3corruptConn ⟨1⟩).length = 2 ∧
    get_stacks_header_info c3corruptConn ⟨1⟩ =
      Outcome.ok (some ⟨⟨10, 11⟩, ⟨12⟩, 13, 14⟩) ∧
    (minerRowsFor c3corruptConn ⟨1⟩).length = 2 ∧
    get_miner_info c3corruptConn ⟨1⟩ = Outcome.ok (some ⟨⟨77⟩⟩) := by
  decide

/-- C3 (amended): for both Header Accessor lookups, a failing query
mechanism aborts, a malformed FIRST matching row aborts, zero matching
rows returns the normal absent result without aborting, and when the
first matching row parses the lookup returns that row's value without
aborting — rows after the first (malformed or not) are ignored. -/
theorem c3_header_lookup_abort_behavior (conn : DBConn) (b : StacksBlockId) :
    (conn.block_headers_query_fails = true →
      get_stacks_header_info conn b = Outcome.abort) ∧
    (conn.block_headers_query_fails = false → headerRowsFor conn b = [] →
      get_stacks_header_info conn b = Outcome.ok none) ∧
    (∀ r rest, conn.block_headers_query_fails = false →
      headerRowsFor conn b = r :: rest → r.parsed = none →
      get_stacks_header_info conn b = Outcome.abort) ∧
    (∀ r rest x, conn.block_headers_query_fails = false →
      headerRowsFor conn b = r :: rest → r.parsed = some x →
      get_stacks_header_info conn b = Outcome.ok (some x)) ∧
    (conn.payments_query_fails = true →
      get_miner_info conn b = Outcome.abort) ∧
    (conn.payments_query_fails = false → minerRowsFor conn b = [] →
      get_miner_info conn b = Outcome.ok none) ∧
    (∀ r rest, conn.payments_query_fails = false →
      minerRowsFor conn b = r :: rest → r.parsed = none →
      get_miner_info conn b = Outcome.abort) ∧
    (∀ r rest x, conn.payments_query_fails = false →
      minerRowsFor conn b = r :: rest → r.parsed = some x →
      get_miner_info conn b = Outcome.ok (some x)) := by
  refine ⟨?_, ?_, ?_, ?_, ?_, ?_, ?_, ?_⟩
  · intro hf
    simp [get_stacks_header_info, queryRowOptionalExpect, hf]
  · intro hf h0
    simp [get_stacks_header_info, queryRowOptionalExpect, hf, h0]
  · intro r rest hf h hp
    simp [get_stacks_header_info, queryRowOptionalExpect, hf, h, hp]
  · intro r rest x hf h hp
    simp [get_stacks_header_info, queryRowOptionalExpect, hf, h, hp]
  · intro hf
    simp [get_miner_info, queryRowOptionalExpect, hf]
  · intro hf h0
    simp [get_miner_info, queryRowOptionalExpect, hf, h0]
  · intro r rest hf h hp
    simp [get_miner_info, queryRowOptionalExpect, hf, h, hp]
  · intro r rest x hf h hp
    simp [get_miner_info, queryRowOptionalExpect, hf, h, hp]

/-- Witness for C3 (amended) at concrete connections: a failing header
query aborts, and an empty payments table answers absent. -/
theorem c3_header_lookup_abort_behavior_witness :
    get_stacks_header_info ⟨[], [], true, false⟩ ⟨0⟩ = Outcome.abort ∧
    get_miner_info ⟨[], [], false, false⟩ ⟨0⟩ = Outcome.ok none :=
  ⟨(c3_header_lookup_abort_behavior ⟨[], [], true, false⟩ ⟨0⟩).1 rfl,
   (c3_header_lookup_abort_behavior
     ⟨[], [], false, false⟩ ⟨0⟩).2.2.2.2.2.1 rfl rfl⟩

/-- C5: with a healthy header-query mechanism, a block identifier with
no written header record answers absent on all five derived queries,
and one with a single well-formed record answers present on all five,
each value derived from that one record. -/
theorem c5_header_queries_no_partial_presence (conn : DBConn)
    (b : StacksBlockId) (hfail : conn.block_headers_query_fails = false) :
    (headerRowsFor conn b = [] →
      conn.get_stacks_block_header_hash_for_block b = Outcome.ok none ∧
      conn.get_burn_header_hash_for_block b = Outcome.ok none ∧
      conn.get_burn_block_time_for_block b = Outcome.ok none ∧
      conn.get_burn_block_height_for_block b = Outcome.ok none ∧
      conn.get_vrf_seed_for_block b = Outcome.ok none) ∧
    (∀ r x, headerRowsFor conn b = [r] → r.parsed = some x →
      conn.get_stacks_block_header_hash_for_block b =
        Outcome.ok (some x.anchored_header.block_hash) ∧
      conn.get_burn_header_hash_for_block b =
        Outcome.ok (some x.burn_header_hash) ∧
      conn.get_burn_block_time_for_block b =
        Outcome.ok (some x.burn_header_timestamp) ∧
      conn.get_burn_block_height_for_block b =
        Outcome.ok (some x.burn_header_height) ∧
      conn.get_vrf_seed_for_block b =
        Outcome.ok (some (VRFSeed.from_proof x.anchored_header.proof))) := by
  constructor
  · intro h0
    refine ⟨?_, ?_, ?_, ?_, ?_⟩ <;>
      simp [DBConn.get_stacks_block_header_hash_for_block,
        DBConn.get_burn_header_hash_for_block,
        DBConn.get_burn_block_time_for_block,
        DBConn.get_burn_block_height_for_block,
        DBConn.get_vrf_seed_for_block,
        get_stacks_header_info, queryRowOptionalExpect, Outcome.omap,
        hfail, h0]
  · intro r x h hx
    refine ⟨?_, ?_, ?_, ?_, ?_⟩ <;>
      simp [DBConn.get_stacks_block_header_hash_for_block,
        DBConn.get_burn_header_hash_for_block,
        DBConn.get_burn_block_time_for_block,
        DBConn.get_burn_block_height_for_block,
        DBConn.get_vrf_seed_for_block,
        get_stacks_header_info, queryRowOptionalExpect, Outcome.omap,
        hfail, h, hx]

/-- Concrete connection for the C5 witness: one well-formed header
record under identifier 3. -/
def c5oneRecordConn : DBConn :=
  ⟨[⟨⟨3⟩, some ⟨⟨10, 11⟩, ⟨12⟩, 13, 14⟩⟩], [], false, false⟩

/-- Witness for C5 at a concrete connection: identifier 3 has a record,
so height and VRF-seed queries are present; identifier 4 has none, so
the block-hash query is absent. -/
theorem c5_header_queries_no_partial_presence_witness :
    c5oneRecordConn.get_burn_block_height_for_block ⟨3⟩ =
      Outcome.ok (some 14) ∧
    c5oneRecordConn.get_vrf_seed_for_block ⟨3⟩ =
      Outcome.ok (some ⟨11⟩) ∧
    c5oneRecordConn.get_stacks_block_header_hash_for_block ⟨4⟩ =
      Outcome.ok none :=
  ⟨((c5_header_queries_no_partial_presence c5oneRecordConn ⟨3⟩ rfl).2
      ⟨⟨3⟩, some ⟨⟨10, 11⟩, ⟨12⟩, 13, 14⟩⟩ ⟨⟨10, 11⟩, ⟨12⟩, 13, 14⟩
      (by decide) rfl).2.2.2.1,
   ((c5_header_queries_no_partial_presence c5oneRecordConn ⟨3⟩ rfl).2
      ⟨⟨3⟩, some ⟨⟨10, 11⟩, ⟨12⟩, 13, 14⟩⟩ ⟨⟨10, 11⟩, ⟨12⟩, 13, 14⟩
      (by decide) rfl).2.2.2.2,
   ((c5_header_queries_no_partial_presence c5oneRecordConn ⟨4⟩ rfl).1
      (by decide)).1⟩

/-- C6: with a healthy payments-query mechanism, well-formed rows, and
the ledger invariant of at most one miner-flagged payment row per block
identifier, the miner-address query answers present iff exactly one
miner-flagged payment row exists for the identifier, and then returns
that row's address. -/
theorem c6_miner_address_iff_unique_flagged_record (conn : DBConn)
    (b : StacksBlockId) (hfail : conn.payments_query_fails = false)
    (hwf : ∀ r ∈ minerRowsFor conn b, (r.parsed).isSome)
    (hinv : (minerRowsFor conn b).length ≤ 1) :
    ((∃ a, conn.get_miner_address b = Outcome.ok (some a)) ↔
      (minerRowsFor conn b).length = 1) ∧
    (∀ r x, minerRowsFor conn b = [r] → r.parsed = some x →
      conn.get_miner_address b = Outcome.ok (some x.address)) := by
  cases hmr : minerRowsFor conn b with
  | nil =>
    constructor
    · constructor
      · rintro ⟨a, ha⟩
        rw [DBConn.get_miner_address, get_miner_info, hmr] at ha
        simp [queryRowOptionalExpect, Outcome.omap, hfail] at ha
      · intro h1
        simp [hmr] at h1
    · intro r x h
      simp at h
  | cons r rest =>
    have hrest : rest = [] := by
      rw [hmr] at hinv
      cases rest with
      | nil => rfl
      | cons s t => simp at hinv
    subst hrest
    have hr : r ∈ minerRowsFor conn b := by
      rw [hmr]
      exact List.mem_singleton_self r
    obtain ⟨x, hx⟩ := Option.isSome_iff_exists.mp (hwf r hr)
    have hval : conn.get_miner_address b = Outcome.ok (some x.address) := by
      rw [DBConn.get_miner_address, get_miner_info, hmr]
      simp [queryRowOptionalExpect, Outcome.omap, hfail, hx]
    constructor
    · constructor
      · intro _
        simp [hmr]
      · intro _
        exact ⟨x.address, hval⟩
    · intro r' x' h hpx
      obtain ⟨hr', -⟩ := List.cons_eq_cons.mp h
      subst hr'
      rw [hx] at hpx
      cases hpx
      exact hval

/-- Concrete connection for the C6 witness: a single miner-flagged
payment row under identifier 1. -/
def c6minerConn : DBConn :=
  ⟨[], [⟨⟨1⟩, true, some ⟨⟨7⟩⟩⟩], false, false⟩

/-- Witness for C6 at a concrete connection: identifier 1 has exactly
one miner-flagged row and the query returns its address. -/
theorem c6_miner_address_iff_unique_flagged_record_witness :
    c6minerConn.get_miner_address ⟨1⟩ = Outcome.ok (some ⟨7⟩) :=
  (c6_miner_address_iff_unique_flagged_record c6minerConn ⟨1⟩ rfl
    (by decide) (by decide)).2 ⟨⟨1⟩, true, some ⟨⟨7⟩⟩⟩ ⟨⟨7⟩⟩
    (by decide) rfl

/-! ## The Burn-State Accessor (`impl BurnStateDB` for `SortitionHandleTx`
and `SortitionDBConn`)

The sortition ledger (`SortitionDB` and its MARF index) lives outside
this repository slice; its point-lookup, fork-rebasing and read-only
reopening surfaces are modelled from the spec.  Lower-level failure
modes of each surface are modelled by flags on the index. -/

/-- Sortition ledger snapshot (`BlockSnapshot`) as used by this file:
the burnchain block height (a 64-bit field in the ledger) and the
burnchain header hash for that fork position. -/
structure SortitionSnapshot where
  block_height : Nat
  burn_header_hash : BurnchainHeaderHash
deriving DecidableEq, Repr

/-- Fork context of a sortition handle (`SortitionHandleContext`): the
chain tip naming the fork plus further fork-independent context carried
along on a clone (modelled by one representative field). -/
structure SortitionHandleContext where
  chain_tip : SortitionId
  first_block_height : Nat
deriving DecidableEq, Repr

/-- Underlying versioned sortition index (the `SortitionDB`'s MARF):
the point-lookup table of snapshots by sortition id, the height-indexed
snapshot sequence of each fork, and one failure flag per collaborator
surface modelling a lower-level failure of that surface. -/
structure SortitionIndex where
  snapshots : List (SortitionId × SortitionSnapshot)
  forks : List (SortitionId × List SortitionSnapshot)
  snapshot_query_fails : Bool
  height_query_fails : Bool
  reopen_fails : Bool
  open_reader_fails : Bool
deriving DecidableEq, Repr

/-- Snapshot stored in the point-lookup table for a sortition id. -/
def SortitionIndex.snapshotOf (ix : SortitionIndex) (sortition_id : SortitionId) :
    Option SortitionSnapshot :=
  (ix.snapshots.find? (fun p => p.1 == sortition_id)).map (fun p => p.2)

/-- Snapshots along the fork identified by the given tip (empty for an
unknown fork). -/
def SortitionIndex.forkOf (ix : SortitionIndex) (tip : SortitionId) :
    List SortitionSnapshot :=
  ((ix.forks.find? (fun p => p.1 == tip)).map (fun p => p.2)).getD []

/-- Modelled from the spec: the snapshot along the fork identified by
`tip` whose stored height equals the given height, if any. -/
def SortitionIndex.snapshotAtHeight (ix : SortitionIndex) (tip : SortitionId)
    (height : Nat) : Option SortitionSnapshot :=
  (ix.forkOf tip).find? (fun s => s.block_height == height)

/-- Modelled from the spec: `SortitionDB::get_block_snapshot` — point
lookup of the snapshot stored for a sortition id; `Err` when the
lower-level query mechanism fails. -/
def SortitionDB.get_block_snapshot (ix : SortitionIndex)
    (sortition_id : SortitionId) : Except Unit (Option SortitionSnapshot) :=
  if ix.snapshot_query_fails then Except.error ()
  else Except.ok (ix.snapshotOf sortition_id)

/-- Modelled from the spec: `MARF::reopen_readonly` — opens a second,
read-only handle onto the same underlying versioned index; `Err` when
opening fails. -/
def SortitionIndex.reopen_readonly (ix : SortitionIndex) :
    Except Unit SortitionIndex :=
  if ix.reopen_fails then Except.error () else Except.ok ix

/-- Read-only sortition handle (`SortitionHandleConn`): a borrowed
index plus a private fork context. -/
structure SortitionHandleConn where
  index : SortitionIndex
  context : SortitionHandleContext
deriving DecidableEq, Repr

/-- Modelled from the spec: `SortitionHandleConn::get_block_snapshot_by_height`
— along the fork identified by the handle's context chain tip, the
snapshot whose stored height equals the given height; `Err` when the
lower-level query mechanism fails. -/
def SortitionHandleConn.get_block_snapshot_by_height
    (c : SortitionHandleConn) (height : Nat) :
    Except Unit (Option SortitionSnapshot) :=
  if c.index.height_query_fails then Except.error ()
  else Except.ok (c.index.snapshotAtHeight c.context.chain_tip height)

/-- Open write transaction on the sortition ledger
(`SortitionHandleTx`): the underlying index reachable through `tx()` /
`index()`, plus the caller's fork context `self.context`. -/
structure SortitionHandleTx where
  index : SortitionIndex
  context : SortitionHandleContext
deriving DecidableEq, Repr

/-- Read-only sortition ledger connection (`SortitionDBConn`): the
underlying index reachable through `conn()`, plus its own context. -/
structure SortitionDBConn where
  index : SortitionIndex
  context : SortitionHandleContext
deriving DecidableEq, Repr

/-- Modelled from the spec: `SortitionHandleConn::open_reader` — opens
a read-only cursor onto the connection's index, directly scoped to the
given sortition id; `Err` when opening fails. -/
def SortitionHandleConn.open_reader (conn : SortitionDBConn)
    (sortition_id : SortitionId) : Except Unit SortitionHandleConn :=
  if conn.index.open_reader_fails then Except.error ()
  else Except.ok ⟨conn.index, { conn.context with chain_tip := sortition_id }⟩

namespace SortitionHandleTx

/-- Embeds `BurnStateDB::get_burn_block_height` for `SortitionHandleTx`:
a point snapshot lookup; the snapshot's 64-bit height is narrowed with
`as u32` (reduction modulo `2 ^ 32`); any `Err` and a missing snapshot
both become `none`. -/
def get_burn_block_height (tx : SortitionHandleTx)
    (sortition_id : SortitionId) : Option Nat :=
  match SortitionDB.get_block_snapshot tx.index sortition_id with
  | Except.ok (some x) => some (x.block_height % 2 ^ 32)
  | _ => none

/-- Embeds `BurnStateDB::get_burn_header_hash` for `SortitionHandleTx`:
reopens the index read-only (`expect` — a failure panics, i.e. aborts),
clones the caller's context, retargets the clone's chain tip to the
queried sortition id, queries the height on that private handle, and
maps `Err` and a missing snapshot both to `none`.  The Rust method
borrows `self` immutably; state passing returns the transaction so the
frame effect on it is statable. -/
def get_burn_header_hash (tx : SortitionHandleTx) (height : Nat)
    (sortition_id : SortitionId) :
    Outcome (Option BurnchainHeaderHash) × SortitionHandleTx :=
  match tx.index.reopen_readonly with
  | Except.error _ => (Outcome.abort, tx)
  | Except.ok readonly_marf =>
    let context := { tx.context with chain_tip := sortition_id }
    let db_handle : SortitionHandleConn := ⟨readonly_marf, context⟩
    match db_handle.get_block_snapshot_by_height height with
    | Except.ok (some x) => (Outcome.ok (some x.burn_header_hash), tx)
    | _ => (Outcome.ok none, tx)

end SortitionHandleTx

namespace SortitionDBConn

/-- Embeds `BurnStateDB::get_burn_block_height` for `SortitionDBConn`:
identical to the transactional variant but through `conn()`. -/
def get_burn_block_height (conn : SortitionDBConn)
    (sortition_id : SortitionId) : Option Nat :=
  match SortitionDB.get_block_snapshot conn.index sortition_id with
  | Except.ok (some x) => some (x.block_height % 2 ^ 32)
  | _ => none

/-- Embeds `BurnStateDB::get_burn_header_hash` for `SortitionDBConn`:
opens a read-only cursor scoped to the queried sortition id (`.ok()?`
turns an opening failure into `none`), queries the height on it, and
maps `Err` and a missing snapshot both to `none`. -/
def get_burn_header_hash (conn : SortitionDBConn) (height : Nat)
    (sortition_id : SortitionId) : Option BurnchainHeaderHash :=
  match SortitionHandleConn.open_reader conn sortition_id with
  | Except.error _ => none
  | Except.ok db_handle =>
    match db_handle.get_block_snapshot_by_height height with
    | Except.ok (some x) => some x.burn_header_hash
    | _ => none

end SortitionDBConn

/-! ## Claims C1, C2, C7 — the Burn-State Accessor -/

/-- C1: a transactional `get_burn_header_hash` query for a fork other
than the write transaction's own leaves the transaction (in particular
`self.context` with its `chain_tip`) unchanged, and a present answer is
the `burn_header_hash` of fork B's snapshot at the queried height. -/
theorem c1_tx_get_burn_header_hash_rebase_and_frame
    (tx : SortitionHandleTx) (height : Nat) (b : SortitionId)
    (hne : b ≠ tx.context.chain_tip) :
    (tx.get_burn_header_hash height b).2 = tx ∧
    ((tx.get_burn_header_hash height b).2).context = tx.context ∧
    (∀ hash, (tx.get_burn_header_hash height b).1 =
        Outcome.ok (some hash) →
      ∃ s, tx.index.snapshotAtHeight b height = some s ∧
        s.burn_header_hash = hash) := by
  have hframe : (tx.get_burn_header_hash height b).2 = tx := by
    unfold SortitionHandleTx.get_burn_header_hash
    split
    · rfl
    · dsimp only
      split <;> rfl
  refine ⟨hframe, by rw [hframe], ?_⟩
  intro hash hres
  by_cases hro : tx.index.reopen_fails
  · simp [SortitionHandleTx.get_burn_header_hash,
      SortitionIndex.reopen_readonly, hro] at hres
  · by_cases hhq : tx.index.height_query_fails
    · simp [SortitionHandleTx.get_burn_header_hash,
        SortitionIndex.reopen_readonly,
        SortitionHandleConn.get_block_snapshot_by_height, hro, hhq] at hres
    · rcases hsn : tx.index.snapshotAtHeight b height with _ | s
      · simp [SortitionHandleTx.get_burn_header_hash,
          SortitionIndex.reopen_readonly,
          SortitionHandleConn.get_block_snapshot_by_height,
          hro, hhq, hsn] at hres
      · simp [SortitionHandleTx.get_burn_header_hash,
          SortitionIndex.reopen_readonly,
          SortitionHandleConn.get_block_snapshot_by_height,
          hro, hhq, hsn] at hres
        exact ⟨s, rfl, hres⟩

/-- Concrete transaction for the C1 witness: the write transaction sits
on fork 1 while fork 2 holds a snapshot of hash 9 at height 5. -/
def c1forkTx : SortitionHandleTx :=
  ⟨⟨[], [(⟨2⟩, [⟨5, ⟨9⟩⟩])], false, false, false, false⟩, ⟨⟨1⟩, 100⟩⟩

/-- Witness for C1 at a concrete transaction: querying fork 2 from a
transaction on fork 1 leaves the transaction unchanged, and fork 2's
snapshot at the queried height carries the returned hash. -/
theorem c1_tx_get_burn_header_hash_rebase_and_frame_witness :
    (c1forkTx.get_burn_header_hash 5 ⟨2⟩).2 = c1forkTx ∧
    (∃ s, c1forkTx.index.snapshotAtHeight ⟨2⟩ 5 = some s ∧
      s.burn_header_hash = ⟨9⟩) :=
  ⟨(c1_tx_get_burn_header_hash_rebase_and_frame c1forkTx 5 ⟨2⟩
      (by decide)).1,
   (c1_tx_get_burn_header_hash_rebase_and_frame c1forkTx 5 ⟨2⟩
      (by decide)).2.2 ⟨9⟩ (by decide)⟩

/-- Concrete transaction for the C2 counterexample: reopening the index
read-only fails. -/
def c2reopenFailTx : SortitionHandleTx :=
  ⟨⟨[], [], false, false, true, false⟩, ⟨⟨0⟩, 0⟩⟩

/-- Counterexample for C2: a lower-level failure of the transactional
accessor's reopen step is surfaced as a process abort (the source's
`expect`), not as `None`. -/
theorem c2_reopen_failure_aborts_counterexample :
    c2reopenFailTx.index.reopen_fails = true ∧
    (c2reopenFailTx.get_burn_header_hash 0 ⟨0⟩).1 = Outcome.abort ∧
    (c2reopenFailTx.get_burn_header_hash 0 ⟨0⟩).1 ≠ Outcome.ok none := by
  decide

/-- C2 (amended): both implementations fold a missing snapshot and a
failed lower-level lookup into `None` for `get_burn_block_height` and
`get_burn_header_hash` — except that the transactional
`get_burn_header_hash` aborts the process when reopening a read-only
handle onto the sortition index fails. -/
theorem c2_absence_and_failure_fold_to_none (tx : SortitionHandleTx)
    (conn : SortitionDBConn) (height : Nat) (sid : SortitionId) :
    (tx.index.snapshot_query_fails = true →
      tx.get_burn_block_height sid = none) ∧
    (tx.index.snapshotOf sid = none →
      tx.get_burn_block_height sid = none) ∧
    (conn.index.snapshot_query_fails = true →
      conn.get_burn_block_height sid = none) ∧
    (conn.index.snapshotOf sid = none →
      conn.get_burn_block_height sid = none) ∧
    (tx.index.reopen_fails = false → tx.index.height_query_fails = true →
      (tx.get_burn_header_hash height sid).1 = Outcome.ok none) ∧
    (tx.index.reopen_fails = false →
      tx.index.snapshotAtHeight sid height = none →
      (tx.get_burn_header_hash height sid).1 = Outcome.ok none) ∧
    (tx.index.reopen_fails = true →
      (tx.get_burn_header_hash height sid).1 = Outcome.abort) ∧
    (conn.index.open_reader_fails = true →
      conn.get_burn_header_hash height sid = none) ∧
    (conn.index.open_reader_fails = false →
      conn.index.height_query_fails = true →
      conn.get_burn_header_hash height sid = none) ∧
    (conn.index.open_reader_fails = false →
      conn.index.snapshotAtHeight sid height = none →
      conn.get_burn_header_hash height sid = none) := by
  refine ⟨?_, ?_, ?_, ?_, ?_, ?_, ?_, ?_, ?_, ?_⟩
  · intro h
    simp [SortitionHandleTx.get_burn_block_height,
      SortitionDB.get_block_snapshot, h]
  · intro h
    by_cases hf : tx.index.snapshot_query_fails <;>
      simp [SortitionHandleTx.get_burn_block_height,
        SortitionDB.get_block_snapshot, h, hf]
  · intro h
    simp [SortitionDBConn.get_burn_block_height,
      SortitionDB.get_block_snapshot, h]
  · intro h
    by_cases hf : conn.index.snapshot_query_fails <;>
      simp [SortitionDBConn.get_burn_block_height,
        SortitionDB.get_block_snapshot, h, hf]
  · intro h1 h2
    simp [SortitionHandleTx.get_burn_header_hash,
      SortitionIndex.reopen_readonly,
      SortitionHandleConn.get_block_snapshot_by_height, h1, h2]
  · intro h1 h2
    by_cases hq : tx.index.height_query_fails <;>
      simp [SortitionHandleTx.get_burn_header_hash,
        SortitionIndex.reopen_readonly,
        SortitionHandleConn.get_block_snapshot_by_height, h1, h2, hq]
  · intro h1
    simp [SortitionHandleTx.get_burn_header_hash,
      SortitionIndex.reopen_readonly, h1]
  · intro h1
    simp [SortitionDBConn.get_burn_header_hash,
      SortitionHandleConn.open_reader, h1]
  · intro h1 h2
    simp [SortitionDBConn.get_burn_header_hash,
      SortitionHandleConn.open_reader,
      SortitionHandleConn.get_block_snapshot_by_height, h1, h2]
  · intro h1 h2
    by_cases hq : conn.index.height_query_fails <;>
      simp [SortitionDBConn.get_burn_header_hash,
        SortitionHandleConn.open_reader,
        SortitionHandleConn.get_block_snapshot_by_height, h1, h2, hq]

/-- Concrete empty transaction for the C2 witness. -/
def c2emptyTx : SortitionHandleTx :=
  ⟨⟨[], [], false, false, false, false⟩, ⟨⟨0⟩, 0⟩⟩

/-- Concrete empty read-only connection for the C2 witness. -/
def c2emptyConn : SortitionDBConn :=
  ⟨⟨[], [], false, false, false, false⟩, ⟨⟨0⟩, 0⟩⟩

/-- Witness for C2 (amended) at concrete handles: missing snapshots
answer `None` through both implementations and both operations. -/
theorem c2_absence_and_failure_fold_to_none_witness :
    c2emptyTx.get_burn_block_height ⟨0⟩ = none ∧
    (c2emptyTx.get_burn_header_hash 3 ⟨0⟩).1 = Outcome.ok none ∧
    c2emptyConn.get_burn_header_hash 3 ⟨0⟩ = none :=
  ⟨(c2_absence_and_failure_fold_to_none c2emptyTx c2emptyConn 3 ⟨0⟩).2.1
      (by decide),
   (c2_absence_and_failure_fold_to_none c2emptyTx c2emptyConn 3
      ⟨0⟩).2.2.2.2.2.1 rfl (by decide),
   (c2_absence_and_failure_fold_to_none c2emptyTx c2emptyConn 3
      ⟨0⟩).2.2.2.2.2.2.2.2.2 rfl (by decide)⟩

/-- Concrete transaction for the C7 counterexample: the stored 64-bit
snapshot height `2 ^ 32` does not fit in 32 bits. -/
def c7truncTx : SortitionHandleTx :=
  ⟨⟨[(⟨4⟩, ⟨2 ^ 32, ⟨5⟩⟩)], [], false, false, false, false⟩, ⟨⟨0⟩, 0⟩⟩

/-- Counterexample for C7: a snapshot whose stored height is `2 ^ 32`
exists for sortition id 4, yet the returned height is 0, not the stored
height — the `as u32` narrowing truncates. -/
theorem c7_height_truncation_counterexample :
    c7truncTx.index.snapshotOf ⟨4⟩ = some ⟨2 ^ 32, ⟨5⟩⟩ ∧
    c7truncTx.get_burn_block_height ⟨4⟩ = some 0 ∧
    c7truncTx.get_burn_block_height ⟨4⟩ ≠ some (2 ^ 32) := by
  decide

/-- C7 (amended): with a healthy point-lookup mechanism, both
implementations answer `get_burn_block_height` present iff a snapshot
exists for the sortition id, returning the snapshot's stored height
reduced modulo `2 ^ 32` (the stored height itself whenever it fits in
32 bits). -/
theorem c7_get_burn_block_height_present_iff_snapshot
    (tx : SortitionHandleTx) (conn : SortitionDBConn) (sid : SortitionId)
    (htx : tx.index.snapshot_query_fails = false)
    (hconn : conn.index.snapshot_query_fails = false) :
    tx.get_burn_block_height sid =
      (tx.index.snapshotOf sid).map (fun s => s.block_height % 2 ^ 32) ∧
    conn.get_burn_block_height sid =
      (conn.index.snapshotOf sid).map (fun s => s.block_height % 2 ^ 32) ∧
    ((tx.get_burn_block_height sid).isSome ↔
      (tx.index.snapshotOf sid).isSome) ∧
    ((conn.get_burn_block_height sid).isSome ↔
      (conn.index.snapshotOf sid).isSome) := by
  have h1 : tx.get_burn_block_height sid =
      (tx.index.snapshotOf sid).map (fun s => s.block_height % 2 ^ 32) := by
    rcases hs : tx.index.snapshotOf sid with _ | s <;>
      simp [SortitionHandleTx.get_burn_block_height,
        SortitionDB.get_block_snapshot, htx, hs]
  have h2 : conn.get_burn_block_height sid =
      (conn.index.snapshotOf sid).map (fun s => s.block_height % 2 ^ 32) := by
    rcases hs : conn.index.snapshotOf sid with _ | s <;>
      simp [SortitionDBConn.get_burn_block_height,
        SortitionDB.get_block_snapshot, hconn, hs]
  refine ⟨h1, h2, ?_, ?_⟩
  · rcases hs : tx.index.snapshotOf sid with _ | s <;> simp [h1, hs]
  · rcases hs : conn.index.snapshotOf sid with _ | s <;> simp [h2, hs]

/-- Concrete transaction for the C7 witness: sortition id 4 stores a
snapshot at height 7. -/
def c7smallTx : SortitionHandleTx :=
  ⟨⟨[(⟨4⟩, ⟨7, ⟨5⟩⟩)], [], false, false, false, false⟩, ⟨⟨0⟩, 0⟩⟩

/-- Concrete connection for the C7 witness: same contents as the
witness transaction. -/
def c7smallConn : SortitionDBConn :=
  ⟨⟨[(⟨4⟩, ⟨7, ⟨5⟩⟩)], [], false, false, false, false⟩, ⟨⟨0⟩, 0⟩⟩

/-- Witness for C7 (amended) at concrete handles: the stored height 7
is returned for sortition id 4, and an unknown id answers absent. -/
theorem c7_get_burn_block_height_present_iff_snapshot_witness :
    c7smallTx.get_burn_block_height ⟨4⟩ = some 7 ∧
    c7smallConn.get_burn_block_height ⟨9⟩ = none :=
  ⟨(c7_get_burn_block_height_present_iff_snapshot c7smallTx c7smallConn
      ⟨4⟩ rfl rfl).1.trans (by decide),
   (c7_get_burn_block_height_present_iff_snapshot c7smallTx c7smallConn
      ⟨9⟩ rfl rfl).2.1.trans (by decide)⟩
